import Mathlib

/-!
Verification of the access-code redemption and profile-bootstrap workflow of
the Eliv8-Sports repository.

The embedding models, from the source:
  * the relational schema (migration `part_001`, with the `user_sports.gender`
    column added in `part_000`; the `access_codes.coach_id` and
    `coach_athletes.gender` columns are referenced by the client source
    `src/pages/athlete/AccessCode.tsx`, so they are included in the rows),
  * the SQL trigger function `handle_athlete_access_code` and the trigger
    `on_access_code_used` with its `WHEN (OLD.used_by IS NULL AND NEW.used_by
    IS NOT NULL)` clause,
  * the SQL trigger function `handle_new_user` (profile bootstrap with a
    retry loop and fallback insert),
  * the client redemption flows: `validateCode`/`handleJoin` from
    `src/pages/athlete/AccessCode.tsx`, `handleSubmit` from
    `src/pages/coach/AccessCode.tsx`, and the access-code portion of
    `handleSignUp` from `src/pages/auth/SignUp.tsx`.

Identifiers (uuid) are modelled as `Nat`, timestamps as `Nat`, nullable
columns as `Option`.  Transient store failures for the bootstrap are given
by an oracle `fails : Nat → Bool` indexed by insert-attempt number.
Row-level security and the display-only joined name fields of the athlete
validation select are not modelled; the flows are modelled for an
authenticated caller.
-/

namespace Eliv8

/-- A row of the `access_codes` table (migration `part_001`).  Columns:
`code text UNIQUE NOT NULL`, `organization_id uuid`, `role text NOT NULL`,
`sport_id uuid`, `gender text`, `created_by uuid`, `used_at timestamptz`,
`used_by uuid`; plus the `coach_id` column read by the athlete client flow. -/
structure AccessCodeRow where
  code : String
  organization_id : Option Nat
  role : String
  sport_id : Option Nat
  gender : Option String
  created_by : Option Nat
  coach_id : Option Nat
  used_at : Option Nat
  used_by : Option Nat
deriving DecidableEq

/-- A row of `coach_athletes`: all four reference columns are `NOT NULL`,
with `UNIQUE(coach_id, athlete_id, sport_id, organization_id)`; the client
insert also writes a nullable `gender`. -/
structure CoachAthleteRow where
  coach_id : Nat
  athlete_id : Nat
  sport_id : Nat
  organization_id : Nat
  gender : Option String
deriving DecidableEq

/-- A row of `user_sports`: nullable references with
`UNIQUE(user_id, sport_id, organization_id)` and the nullable `gender`
column added in migration `part_000`. -/
structure UserSportRow where
  user_id : Option Nat
  sport_id : Option Nat
  organization_id : Option Nat
  gender : Option String
deriving DecidableEq

/-- A row of `profiles`: `id` is the auth identity, `role` is null or one of
admin/coach/athlete, with nullable organization, name and email. -/
structure ProfileRow where
  id : Nat
  role : Option String
  organization_id : Option Nat
  full_name : Option String
  email : Option String
deriving DecidableEq

/-- The database state: the four tables the redemption and bootstrap
workflow touches. -/
structure DB where
  access_codes : List AccessCodeRow
  coach_athletes : List CoachAthleteRow
  user_sports : List UserSportRow
  profiles : List ProfileRow
deriving DecidableEq

/-- The `UNIQUE(coach_id, athlete_id, sport_id, organization_id)` key of
`coach_athletes`; `gender` is not part of the key. -/
def caSameKey (a b : CoachAthleteRow) : Bool :=
  a.coach_id == b.coach_id && a.athlete_id == b.athlete_id &&
    a.sport_id == b.sport_id && a.organization_id == b.organization_id

/-- SQL `NULL`-aware key equality: in a Postgres unique constraint two
`NULL`s are distinct, so only two non-null equal values conflict. -/
def optKeyEq (a b : Option Nat) : Bool :=
  match a, b with
  | some x, some y => x == y
  | _, _ => false

/-- The `UNIQUE(user_id, sport_id, organization_id)` key of `user_sports`,
with Postgres `NULL` semantics. -/
def usConflict (a b : UserSportRow) : Bool :=
  optKeyEq a.user_id b.user_id && optKeyEq a.sport_id b.sport_id &&
    optKeyEq a.organization_id b.organization_id

/-- Plain `INSERT` into `coach_athletes`: a duplicate key is a uniqueness
violation error (this is what the client-side insert in `handleJoin`
performs). -/
def insertCoachAthlete (r : CoachAthleteRow) (db : DB) : Except String DB :=
  if db.coach_athletes.any (fun x => caSameKey x r) then
    .error "duplicate key value violates unique constraint on coach_athletes"
  else
    .ok { db with coach_athletes := db.coach_athletes ++ [r] }

/-- `INSERT ... ON CONFLICT (coach_id, athlete_id, sport_id, organization_id)
DO NOTHING` on the `coach_athletes` list, as in the trigger function
`handle_athlete_access_code`. -/
def insertCAIgnore (r : CoachAthleteRow) (cas : List CoachAthleteRow) :
    List CoachAthleteRow :=
  if cas.any (fun x => caSameKey x r) then cas else cas ++ [r]

/-- Plain `INSERT` into `user_sports`: a duplicate key is a uniqueness
violation error. -/
def insertUserSport (r : UserSportRow) (db : DB) : Except String DB :=
  if db.user_sports.any (fun x => usConflict x r) then
    .error "duplicate key value violates unique constraint on user_sports"
  else
    .ok { db with user_sports := db.user_sports ++ [r] }

/-- The trigger function `handle_athlete_access_code` (migration `part_001`,
lines 307-328), acting on the `coach_athletes` table: when the updated code
row has `role = 'athlete'` and a non-null `used_by`, insert the
coach-athlete link `(created_by, used_by, sport_id, organization_id)` with
`ON CONFLICT DO NOTHING`; a null value for one of the `NOT NULL` columns of
`coach_athletes` raises and aborts the statement. -/
def handle_athlete_access_code (nr : AccessCodeRow)
    (cas : List CoachAthleteRow) : Except String (List CoachAthleteRow) :=
  if nr.role = "athlete" then
    match nr.used_by with
    | none => .ok cas
    | some ath =>
      match nr.created_by, nr.sport_id, nr.organization_id with
      | some cb, some sp, some org =>
          .ok (insertCAIgnore ⟨cb, ath, sp, org, none⟩ cas)
      | _, _, _ =>
          .error "null value in coach_athletes insert violates not-null constraint"
  else .ok cas

/-- An `UPDATE access_codes SET ...` payload: each field is set to the given
non-null value when present and left unchanged when absent.  No operation in
the repository ever writes `NULL` into `used_at` or `used_by`, which this
payload type reflects. -/
structure CodeUpdatePayload where
  set_used_at : Option Nat
  set_used_by : Option Nat
deriving DecidableEq

/-- Apply an update payload to one row. -/
def applyPayload (p : CodeUpdatePayload) (r : AccessCodeRow) : AccessCodeRow :=
  { r with
    used_at := match p.set_used_at with | some t => some t | none => r.used_at
    used_by := match p.set_used_by with | some u => some u | none => r.used_by }

/-- The effect of `UPDATE access_codes ... WHERE code = ct` on one row. -/
def updatedRow (ct : String) (p : CodeUpdatePayload) (r : AccessCodeRow) :
    AccessCodeRow :=
  if r.code = ct then applyPayload p r else r

/-- The `WHEN (OLD.used_by IS NULL AND NEW.used_by IS NOT NULL)` clause of
the trigger `on_access_code_used`. -/
def triggerFires (oldRow newRow : AccessCodeRow) : Bool :=
  oldRow.used_by.isNone && newRow.used_by.isSome

/-- Run the queued `AFTER UPDATE` trigger invocations, one per affected row
whose `WHEN` clause held. -/
def runTriggers : List AccessCodeRow → List CoachAthleteRow →
    Except String (List CoachAthleteRow)
  | [], cas => .ok cas
  | nr :: rest, cas =>
    match handle_athlete_access_code nr cas with
    | .error e => .error e
    | .ok cas' => runTriggers rest cas'

/-- The affected rows for which the `WHEN` clause of `on_access_code_used`
holds, in their new (post-update) version. -/
def firedRows (ct : String) (p : CodeUpdatePayload) (db : DB) :
    List AccessCodeRow :=
  db.access_codes.filterMap (fun r =>
    if r.code = ct ∧ triggerFires r (applyPayload p r) then
      some (applyPayload p r)
    else none)

/-- `UPDATE access_codes SET <p> WHERE code = ct`, including the
`on_access_code_used` trigger: rows matching the code text get the payload
applied, and for each row whose `used_by` transitions from null to non-null
the trigger function runs.  A trigger error aborts the whole statement
(`.error`, no change committed). -/
def updateAccessCodesByCode (ct : String) (p : CodeUpdatePayload) (db : DB) :
    Except String DB :=
  match runTriggers (firedRows ct p db) db.coach_athletes with
  | .error e => .error e
  | .ok cas =>
    .ok { db with access_codes := db.access_codes.map (updatedRow ct p),
                  coach_athletes := cas }

/-- `INSERT INTO access_codes`: the `code` column is `UNIQUE`. -/
def insertAccessCode (r : AccessCodeRow) (db : DB) : Except String DB :=
  if db.access_codes.any (fun x => x.code == r.code) then
    .error "duplicate key value violates unique constraint on access_codes code"
  else
    .ok { db with access_codes := db.access_codes ++ [r] }

/-- The whitespace test of JavaScript `String.prototype.trim()` and SQL
`trim`, restricted to the common ASCII whitespace characters. -/
def isWsChar (c : Char) : Bool :=
  c == ' ' || c == '\t' || c == '\n' || c == '\r'

/-- Executable model of `.trim()`: strip whitespace from both ends. -/
def strTrim (s : String) : String :=
  ⟨((s.data.dropWhile isWsChar).reverse.dropWhile isWsChar).reverse⟩

/-- The identifier fields of the `AccessCodeDetails` state that the athlete
flow's `validateCode` stores and `handleJoin` later reads (the display-only
joined name fields are omitted). -/
structure AccessCodeDetails where
  sport_id : Option Nat
  coach_id : Option Nat
  organization_id : Option Nat
  gender : Option String
deriving DecidableEq

/-- Does a `coach_athletes` row satisfy the `.match` filter of the athlete
flow's existing-connection check, where the coach, sport and organization
come from the (nullable) columns of the code row? -/
def optEqNat (o : Option Nat) (n : Nat) : Bool :=
  match o with
  | some m => m == n
  | none => false

/-- `validateCode` from `src/pages/athlete/AccessCode.tsx` (lines 34-102):
look the code up by exact (trimmed) text; a missing row is the
`'Invalid access code'` error, a set `used_at` is
`'This code has already been used'`, a non-athlete role is
`'Invalid code type'`, an existing coach-athlete connection is
`'You are already connected to this team'`; on success the identifier
fields are returned.  The caller is authenticated (`uid`). -/
def findCode (ct : String) (db : DB) : Option AccessCodeRow :=
  db.access_codes.find? (fun r => r.code == ct)

def validateCode (uid : Nat) (rawCode : String) (db : DB) :
    Except String AccessCodeDetails :=
  if strTrim rawCode = "" then .error "Please enter an access code"
  else
    match findCode (strTrim rawCode) db with
    | none => .error "Invalid access code"
    | some ac =>
      if ac.used_at.isSome then .error "This code has already been used"
      else if ac.role ≠ "athlete" then .error "Invalid code type"
      else if db.coach_athletes.any (fun x =>
          x.athlete_id == uid && optEqNat ac.coach_id x.coach_id &&
          optEqNat ac.sport_id x.sport_id &&
          optEqNat ac.organization_id x.organization_id) then
        .error "You are already connected to this team"
      else .ok ⟨ac.sport_id, ac.coach_id, ac.organization_id, ac.gender⟩

/-- The outcome of a client flow: the surfaced error, if any, and the
database state it leaves behind (a failure after some statements have
committed keeps their effects — there is no transaction spanning the
steps). -/
structure FlowOut where
  err : Option String
  db : DB
deriving DecidableEq

/-- `handleJoin` from `src/pages/athlete/AccessCode.tsx` (lines 104-160),
for an authenticated caller with stored `codeDetails`: first
`UPDATE access_codes SET used_at = now(), used_by = uid WHERE code =
code.trim()` — filtered by the code text alone — then a plain insert into
`coach_athletes` and a plain insert into `user_sports`, each aborting the
rest of the flow on error. -/
def handleJoin (uid : Nat) (rawCode : String) (d : AccessCodeDetails)
    (t : Nat) (db : DB) : FlowOut :=
  match updateAccessCodesByCode (strTrim rawCode) ⟨some t, some uid⟩ db with
  | .error e => ⟨some e, db⟩
  | .ok db1 =>
    match d.coach_id, d.sport_id, d.organization_id with
    | some c, some s, some o =>
      match insertCoachAthlete ⟨c, uid, s, o, d.gender⟩ db1 with
      | .error e => ⟨some e, db1⟩
      | .ok db2 =>
        match insertUserSport ⟨some uid, d.sport_id, d.organization_id, d.gender⟩ db2 with
        | .error e => ⟨some e, db2⟩
        | .ok db3 => ⟨none, db3⟩
    | _, _, _ =>
      ⟨some "null value in coach_athletes insert violates not-null constraint", db1⟩

/-- The athlete redemption flow: `validateCode` immediately followed by
`handleJoin` on the details it returned. -/
def athleteRedeemFlow (uid : Nat) (rawCode : String) (t : Nat) (db : DB) :
    FlowOut :=
  match validateCode uid rawCode db with
  | .error e => ⟨some e, db⟩
  | .ok d => handleJoin uid rawCode d t db

/-- The select of the coach and sign-up flows:
`.eq('code', ct).is('used_at', null).single()`. -/
def findUnusedCode (ct : String) (db : DB) : Option AccessCodeRow :=
  db.access_codes.find? (fun r => r.code == ct && r.used_at.isNone)

/-- `UPDATE profiles SET organization_id = org WHERE id = uid`. -/
def updateProfilesOrg (uid : Nat) (org : Option Nat) (db : DB) : DB :=
  { db with profiles := db.profiles.map (fun p =>
      if p.id = uid then { p with organization_id := org } else p) }

/-- `UPDATE profiles SET role = role, organization_id = org WHERE id = uid`
(the sign-up flow's profile update). -/
def updateProfileRoleOrg (uid : Nat) (role : String) (org : Option Nat)
    (db : DB) : DB :=
  { db with profiles := db.profiles.map (fun p =>
      if p.id = uid then { p with role := some role, organization_id := org }
      else p) }

/-- A statement whose result the client does not check: on error the
aborted statement leaves the database unchanged and the flow continues. -/
def ignoreErr (db : DB) (r : Except String DB) : DB :=
  match r with
  | .ok d => d
  | .error _ => db

/-- Mark a code used, ignoring the statement's result (the coach and
sign-up flows do not check this update's error). -/
def markUsedIgnoring (ct : String) (uid t : Nat) (db : DB) : DB :=
  ignoreErr db (updateAccessCodesByCode ct ⟨some t, some uid⟩ db)

/-- The trailing sport-association insert of the coach and sign-up flows:
performed only when the code carries a sport, its result ignored. -/
def sportInsertIgnoring (uid : Nat) (codeData : AccessCodeRow) (db : DB) : DB :=
  match codeData.sport_id with
  | some _ =>
    ignoreErr db (insertUserSport
      ⟨some uid, codeData.sport_id, codeData.organization_id, none⟩ db)
  | none => db

/-- `handleSubmit` from `src/pages/coach/AccessCode.tsx` (lines 16-74), for
an authenticated caller: select the code with `used_at` null (a missing or
used code is the single `'Invalid or expired access code'` error), check
`role = 'coach'`, update the caller's profile organization, then mark the
code used — an update filtered by the code text alone, whose result the
client ignores — and finally insert the sport association (result also
ignored). -/
def handleSubmit (uid : Nat) (rawCode : String) (t : Nat) (db : DB) :
    FlowOut :=
  match findUnusedCode rawCode db with
  | none => ⟨some "Invalid or expired access code", db⟩
  | some codeData =>
    if codeData.role ≠ "coach" then
      ⟨some "This code is not valid for coaches", db⟩
    else
      ⟨none, sportInsertIgnoring uid codeData
        (markUsedIgnoring rawCode uid t
          (updateProfilesOrg uid codeData.organization_id db))⟩

/-- The access-code portion of `handleSignUp` from
`src/pages/auth/SignUp.tsx` (lines 87-129), after the account is created:
select the code with `used_at` null, mark it used (update filtered by the
code text alone, result unchecked), set the profile role and organization
from the code, and insert the sport association when the code has a sport
(result unchecked). -/
def handleSignUp (uid : Nat) (rawCode : String) (t : Nat) (db : DB) :
    FlowOut :=
  match findUnusedCode (strTrim rawCode) db with
  | none => ⟨some "Invalid or expired access code", db⟩
  | some codeData =>
    ⟨none, sportInsertIgnoring uid codeData
      (updateProfileRoleOrg uid codeData.role codeData.organization_id
        (markUsedIgnoring (strTrim rawCode) uid t db))⟩

/-- Does a profile row for this identity exist
(`SELECT id FROM profiles WHERE id = new.id`)? -/
def profileExists (uid : Nat) (db : DB) : Bool :=
  db.profiles.any (fun p => p.id == uid)

/-- The display-name derivation of `handle_new_user`: the trimmed metadata
`full_name` when present and non-empty, otherwise
`COALESCE(new.email, 'New User')` — the full email address, not its
local-part. -/
def extractFullName (email : Option String) (metaFullName : Option String) :
    String :=
  match metaFullName with
  | some s => if 0 < (strTrim s).length then strTrim s else email.getD "New User"
  | none => email.getD "New User"

/-- Insert the bootstrap profile row: role `'athlete'`, no organization. -/
def insertProfileRow (uid : Nat) (name : String) (email : Option String)
    (db : DB) : DB :=
  { db with profiles := db.profiles ++ [⟨uid, some "athlete", none, some name, email⟩] }

/-- The outcome of the profile bootstrap: the database, the number of
`RAISE WARNING` log lines, and the number of `pg_sleep(0.01)` delays.  The
trigger function has no error outcome — every insert failure is caught. -/
structure BootOut where
  db : DB
  warnings : Nat
  sleeps : Nat
deriving DecidableEq

/-- The retry loop of `handle_new_user` (migration `part_001`, lines
244-300): up to `fuel` insert attempts (3 from the top level); a failed
attempt sleeps 10ms and retries; when the last allowed attempt fails, a
warning is logged and a final fallback insert with the placeholder name
`'New User'` is attempted, itself logging a warning on failure.  `idx`
numbers the insert attempts for the failure oracle. -/
def bootLoop (fails : Nat → Bool) (uid : Nat) (name : String)
    (email : Option String) : Nat → Nat → DB → BootOut
  | 0, _, db => ⟨db, 0, 0⟩
  | fuel + 1, idx, db =>
    if fails idx then
      if fuel = 0 then
        if fails (idx + 1) then ⟨db, 2, 1⟩
        else ⟨insertProfileRow uid "New User" email db, 1, 1⟩
      else
        let r := bootLoop fails uid name email fuel (idx + 1) db
        ⟨r.db, r.warnings, r.sleeps + 1⟩
    else ⟨insertProfileRow uid name email db, 0, 0⟩

/-- The trigger function `handle_new_user` (migration `part_001`, lines
211-304): a no-op when a profile for the identity already exists, otherwise
the retry loop with the derived display name. -/
def handle_new_user (fails : Nat → Bool) (uid : Nat) (email : Option String)
    (metaFullName : Option String) (db : DB) : BootOut :=
  if profileExists uid db then ⟨db, 0, 0⟩
  else bootLoop fails uid (extractFullName email metaFullName) email 3 0 db

/-- The number of profile rows for an identity. -/
def countProfiles (uid : Nat) (db : DB) : Nat :=
  db.profiles.countP (fun p => p.id == uid)

/-- The number of access-code rows with a given code text (`UNIQUE` keeps
this at most 1). -/
def codeCount (c : String) (db : DB) : Nat :=
  db.access_codes.countP (fun r => r.code == c)

/-- The operations of the system that touch the database: the three client
redemption flows, code issuance (the coach/admin generators insert a fresh
code with null `used_at`/`used_by` and no organization), and the profile
bootstrap. -/
inductive Op where
  | athleteJoin (uid : Nat) (rawCode : String) (d : AccessCodeDetails) (t : Nat)
  | coachJoin (uid : Nat) (rawCode : String) (t : Nat)
  | signupJoin (uid : Nat) (rawCode : String) (t : Nat)
  | issueCode (codeText : String) (role : String) (sport : Option Nat)
      (gender : Option String) (creator : Nat)
  | bootstrap (fails : Nat → Bool) (uid : Nat) (email : Option String)
      (metaFullName : Option String)

/-- The database state an operation leaves behind (including the partial
effects of a flow that surfaces an error). -/
def applyOp : Op → DB → DB
  | .athleteJoin uid rc d t, db => (handleJoin uid rc d t db).db
  | .coachJoin uid rc t, db => (handleSubmit uid rc t db).db
  | .signupJoin uid rc t, db => (handleSignUp uid rc t db).db
  | .issueCode ct role sp g cb, db =>
    ignoreErr db (insertAccessCode ⟨ct, none, role, sp, g, some cb, none, none, none⟩ db)
  | .bootstrap f uid em meta, db => (handle_new_user f uid em meta db).db

/-- Run a sequence of operations. -/
def runTrace : List Op → DB → DB
  | [], db => db
  | op :: tr, db => runTrace tr (applyOp op db)

/-- How many rows with code `c` transition from null to non-null `used_by`
between two successive states — exactly the number of times the `WHEN`
clause of `on_access_code_used` holds for that code at this step (rows are
paired positionally; no operation reorders the table). -/
def firesCount (c : String) (db db' : DB) : Nat :=
  (db.access_codes.zip db'.access_codes).countP
    (fun pr => pr.1.code == c && pr.1.used_by.isNone && pr.2.used_by.isSome)

/-- Total number of trigger firings for code `c` along a trace. -/
def traceFires (c : String) : List Op → DB → Nat
  | [], _ => 0
  | op :: tr, db => firesCount c db (applyOp op db) + traceFires c tr (applyOp op db)

/-- The scenario access code of the spec: `AB-123-CD`, role athlete,
sport Soccer (30), gender female, organization O1 (40), issued by coach 20
(with `coach_id` 21), unused. -/
def soccerCode : AccessCodeRow :=
  { code := "AB-123-CD", organization_id := some 40, role := "athlete",
    sport_id := some 30, gender := some "female", created_by := some 20,
    coach_id := some 21, used_at := none, used_by := none }

/-- Database holding just the issued scenario code. -/
def dbIssued : DB := ⟨[soccerCode], [], [], []⟩

/-- The scenario code after consumption by athlete 1 at time 5. -/
def usedSoccerCode : AccessCodeRow :=
  { soccerCode with used_at := some 5, used_by := some 1 }

/-- Database holding the already-consumed scenario code. -/
def dbUsed : DB := ⟨[usedSoccerCode], [], [], []⟩

/-- A coach-role access code that has already been consumed. -/
def usedCoachCode : AccessCodeRow :=
  { code := "CC-999-ZZ", organization_id := some 40, role := "coach",
    sport_id := none, gender := none, created_by := some 50, coach_id := none,
    used_at := some 3, used_by := some 6 }

/-- Database holding the already-consumed coach code. -/
def dbCoachUsed : DB := ⟨[usedCoachCode], [], [], []⟩

/-- The stored details the athlete flow's validation yields for the
scenario code. -/
def soccerDetails : AccessCodeDetails :=
  ⟨some 30, some 21, some 40, some "female"⟩

/-- The coach-role code before consumption. -/
def freshCoachCode : AccessCodeRow :=
  { usedCoachCode with used_at := none, used_by := none }

/-- Database holding the unused coach code. -/
def dbCoachIssued : DB := ⟨[freshCoachCode], [], [], []⟩

/-! ## General lemmas about the embedded operations -/

theorem handle_new_user_noop (fails : Nat → Bool) (uid : Nat)
    (email meta : Option String) (db : DB)
    (h : profileExists uid db = true) :
    handle_new_user fails uid email meta db = ⟨db, 0, 0⟩ := by
  unfold handle_new_user
  rw [h]
  rfl

theorem handle_new_user_run (fails : Nat → Bool) (uid : Nat)
    (email meta : Option String) (db : DB)
    (h : profileExists uid db = false) :
    handle_new_user fails uid email meta db =
      bootLoop fails uid (extractFullName email meta) email 3 0 db := by
  unfold handle_new_user
  rw [h]
  rfl

theorem bootLoop_base (fails : Nat → Bool) (uid : Nat) (name : String)
    (email : Option String) (fuel idx : Nat) (db : DB)
    (h : fails idx = false) :
    bootLoop fails uid name email (fuel + 1) idx db =
      ⟨insertProfileRow uid name email db, 0, 0⟩ := by
  unfold bootLoop
  rw [h]
  rfl

theorem bootLoop_fail_succ (fails : Nat → Bool) (uid : Nat) (name : String)
    (email : Option String) (fuel idx : Nat) (db : DB)
    (h : fails idx = true) :
    bootLoop fails uid name email (fuel + 1 + 1) idx db =
      ⟨(bootLoop fails uid name email (fuel + 1) (idx + 1) db).db,
       (bootLoop fails uid name email (fuel + 1) (idx + 1) db).warnings,
       (bootLoop fails uid name email (fuel + 1) (idx + 1) db).sleeps + 1⟩ := by
  conv_lhs => unfold bootLoop
  rw [h]
  rw [if_pos rfl, if_neg (by omega)]

theorem bootLoop_fail_last (fails : Nat → Bool) (uid : Nat) (name : String)
    (email : Option String) (idx : Nat) (db : DB)
    (h : fails idx = true) (h2 : fails (idx + 1) = false) :
    bootLoop fails uid name email 1 idx db =
      ⟨insertProfileRow uid "New User" email db, 1, 1⟩ := by
  conv_lhs => unfold bootLoop
  rw [h]
  rw [if_pos rfl, if_pos rfl, h2]
  rw [if_neg (by simp)]

theorem profileExists_false_iff (uid : Nat) (db : DB) :
    profileExists uid db = false ↔ ∀ p ∈ db.profiles, p.id ≠ uid := by
  unfold profileExists
  simp [List.any_eq_false]

theorem countProfiles_zero_no_profile (uid : Nat) (db : DB)
    (h : countProfiles uid db = 0) : profileExists uid db = false := by
  rw [profileExists_false_iff]
  intro p hp hid
  unfold countProfiles at h
  rw [List.countP_eq_zero] at h
  exact h p hp (by simp [hid])

/-! ## C7: bootstrap retry, fallback and logging-only failure -/

/-- C7.  When a new identity has no profile yet and all three insert
attempts of the bootstrap loop fail while the final fallback attempt
succeeds, `handle_new_user` inserts the minimal fallback row with the
placeholder name `'New User'` (role athlete, the identity's email), logs
exactly one warning, sleeps through exactly three fixed 10ms delays, and
surfaces no error to the caller (its outcome carries no error at all). -/
theorem handle_new_user_retries_and_falls_back (fails : Nat → Bool)
    (uid : Nat) (email metaFullName : Option String) (db : DB)
    (hno : profileExists uid db = false)
    (h0 : fails 0 = true) (h1 : fails 1 = true) (h2 : fails 2 = true)
    (h3 : fails 3 = false) :
    handle_new_user fails uid email metaFullName db =
      ⟨insertProfileRow uid "New User" email db, 1, 3⟩ := by
  rw [handle_new_user_run fails uid email metaFullName db hno]
  have s1 : bootLoop fails uid (extractFullName email metaFullName) email 3 0 db =
      ⟨(bootLoop fails uid (extractFullName email metaFullName) email 2 1 db).db,
       (bootLoop fails uid (extractFullName email metaFullName) email 2 1 db).warnings,
       (bootLoop fails uid (extractFullName email metaFullName) email 2 1 db).sleeps + 1⟩ :=
    bootLoop_fail_succ fails uid _ email 1 0 db h0
  have s2 : bootLoop fails uid (extractFullName email metaFullName) email 2 1 db =
      ⟨(bootLoop fails uid (extractFullName email metaFullName) email 1 2 db).db,
       (bootLoop fails uid (extractFullName email metaFullName) email 1 2 db).warnings,
       (bootLoop fails uid (extractFullName email metaFullName) email 1 2 db).sleeps + 1⟩ :=
    bootLoop_fail_succ fails uid _ email 0 1 db h1
  have s3 : bootLoop fails uid (extractFullName email metaFullName) email 1 2 db =
      ⟨insertProfileRow uid "New User" email db, 1, 1⟩ :=
    bootLoop_fail_last fails uid _ email 2 db h2 h3
  rw [s1, s2, s3]

/-- Witness for C7 at a concrete oracle that fails the first three
attempts. -/
theorem handle_new_user_retries_and_falls_back_witness :
    handle_new_user (fun n => decide (n < 3)) 7 (some "a@b.co") none
        ⟨[], [], [], []⟩ =
      ⟨insertProfileRow 7 "New User" (some "a@b.co") ⟨[], [], [], []⟩, 1, 3⟩ :=
  handle_new_user_retries_and_falls_back (fun n => decide (n < 3)) 7
    (some "a@b.co") none ⟨[], [], [], []⟩ rfl rfl rfl rfl rfl

/-! ## C8: bootstrap idempotence -/

/-- C8.  The bootstrap is idempotent: if the identity has no profile and the
first run's first insert attempt succeeds, a second run for the same
identity (duplicate trigger invocation, any oracle) is a strict no-op
(identical database, no warnings, no sleeps), and exactly one profile row
for that identity exists afterwards. -/
theorem handle_new_user_idempotent (f g : Nat → Bool) (uid : Nat)
    (email meta email2 meta2 : Option String) (db : DB)
    (h0 : countProfiles uid db = 0) (hf : f 0 = false) :
    handle_new_user g uid email2 meta2 (handle_new_user f uid email meta db).db =
      ⟨(handle_new_user f uid email meta db).db, 0, 0⟩ ∧
    countProfiles uid
      (handle_new_user g uid email2 meta2
        (handle_new_user f uid email meta db).db).db = 1 := by
  have hno : profileExists uid db = false := countProfiles_zero_no_profile uid db h0
  have hrun1 : (handle_new_user f uid email meta db).db =
      insertProfileRow uid (extractFullName email meta) email db := by
    rw [handle_new_user_run f uid email meta db hno,
      bootLoop_base f uid _ email 2 0 db hf]
  have hcount1 : countProfiles uid (handle_new_user f uid email meta db).db = 1 := by
    rw [hrun1]
    unfold countProfiles at h0 ⊢
    unfold insertProfileRow
    simp [List.countP_append, h0, List.countP_cons]
  have hex : profileExists uid (handle_new_user f uid email meta db).db = true := by
    rw [hrun1]
    unfold profileExists insertProfileRow
    simp
  have hrun2 := handle_new_user_noop g uid email2 meta2
    (handle_new_user f uid email meta db).db hex
  refine ⟨hrun2, ?_⟩
  rw [hrun2]
  exact hcount1

/-- Witness for C8 at a concrete identity and oracle. -/
theorem handle_new_user_idempotent_witness :
    handle_new_user (fun _ => true) 7 (some "b@c.co") none
        (handle_new_user (fun _ => false) 7 (some "a@b.co")
          (some "Alice Doe") ⟨[], [], [], []⟩).db =
      ⟨(handle_new_user (fun _ => false) 7 (some "a@b.co")
          (some "Alice Doe") ⟨[], [], [], []⟩).db, 0, 0⟩ :=
  (handle_new_user_idempotent (fun _ => false) (fun _ => true) 7
    (some "a@b.co") (some "Alice Doe") (some "b@c.co") none
    ⟨[], [], [], []⟩ rfl rfl).1

/-! ## C9: the bootstrap display name -/

/-- C9 counterexample: with no metadata full name, the bootstrap stores the
full email address `alice@example.com` as the display name, not the email
local-part `alice` the claim describes. -/
theorem bootstrap_name_not_local_part_cx :
    (handle_new_user (fun _ => false) 7 (some "alice@example.com") none
        ⟨[], [], [], []⟩).db.profiles =
      [⟨7, some "athlete", none, some "alice@example.com",
        some "alice@example.com"⟩] ∧
    "alice@example.com" ≠ "alice" :=
  ⟨rfl, by decide⟩

/-- C9 amended.  On first authentication of an identity with no existing
profile (and a successful first insert attempt), the bootstrap creates the
minimal profile row with role `athlete` whose display name is the trimmed
metadata full name when that is present and non-empty, and otherwise the
full email address (or the placeholder `'New User'` when the email is also
absent) — not the email local-part. -/
theorem bootstrap_minimal_profile (f : Nat → Bool) (uid : Nat)
    (email meta : Option String) (db : DB)
    (hno : profileExists uid db = false) (hf : f 0 = false) :
    (handle_new_user f uid email meta db).db =
      insertProfileRow uid (extractFullName email meta) email db ∧
    (∀ s, meta = some s → 0 < (strTrim s).length →
      extractFullName email meta = strTrim s) ∧
    (∀ e, email = some e → meta = none → extractFullName email meta = e) ∧
    (∀ e s, email = some e → meta = some s → (strTrim s).length = 0 →
      extractFullName email meta = e) ∧
    (email = none → meta = none → extractFullName email meta = "New User") := by
  refine ⟨?_, ?_, ?_, ?_, ?_⟩
  · rw [handle_new_user_run f uid email meta db hno,
      bootLoop_base f uid _ email 2 0 db hf]
  · intro s hs hlen
    subst hs
    unfold extractFullName
    show (if 0 < (strTrim s).length then strTrim s else email.getD "New User") =
      strTrim s
    rw [if_pos hlen]
  · intro e he hm
    subst he; subst hm
    rfl
  · intro e s he hs hlen
    subst he; subst hs
    unfold extractFullName
    show (if 0 < (strTrim s).length then strTrim s else (some e).getD "New User") = e
    rw [if_neg (by omega)]
    rfl
  · intro he hm
    subst he; subst hm
    rfl

/-- Witness for C9's amended theorem: the full email address is stored as
the display name. -/
theorem bootstrap_minimal_profile_witness :
    (handle_new_user (fun _ => false) 8 (some "bob@example.org") none
        ⟨[], [], [], []⟩).db =
      insertProfileRow 8 (extractFullName (some "bob@example.org") none)
        (some "bob@example.org") ⟨[], [], [], []⟩ ∧
    extractFullName (some "bob@example.org") none = "bob@example.org" :=
  ⟨(bootstrap_minimal_profile (fun _ => false) 8 (some "bob@example.org") none
      ⟨[], [], [], []⟩ rfl rfl).1,
   (bootstrap_minimal_profile (fun _ => false) 8 (some "bob@example.org") none
      ⟨[], [], [], []⟩ rfl rfl).2.2.1 "bob@example.org" rfl rfl⟩

/-! ## C3: relationship-insert idempotence -/

/-- C3 counterexample: with a `coach_athletes` row already present, the
client-side plain insert of the same key (performed by `handleJoin` after a
successful redemption) is a uniqueness-violation error — not a success —
while the trigger-side ignore-conflict insert is a silent no-op. -/
theorem duplicate_relationship_insert_error_cx :
    insertCoachAthlete ⟨21, 2, 30, 40, some "female"⟩
        ⟨[], [⟨21, 2, 30, 40, some "female"⟩], [], []⟩ =
      .error "duplicate key value violates unique constraint on coach_athletes" ∧
    insertCAIgnore ⟨21, 2, 30, 40, some "female"⟩
        [⟨21, 2, 30, 40, some "female"⟩] =
      [⟨21, 2, 30, 40, some "female"⟩] :=
  ⟨rfl, rfl⟩

/-- C3 amended.  Inserting the same (coach, athlete, sport, organization)
tuple twice leaves exactly one `coach_athletes` row: the trigger-side
`ON CONFLICT DO NOTHING` insert is idempotent and treats the duplicate as
success, but the client-side insert in `handleJoin` is a plain insert, and
a duplicate there is surfaced as a uniqueness error rather than success. -/
theorem relationship_insert_idempotent (r : CoachAthleteRow)
    (cas : List CoachAthleteRow)
    (h : cas.countP (fun x => caSameKey x r) = 0) :
    insertCAIgnore r (insertCAIgnore r cas) = insertCAIgnore r cas ∧
    (insertCAIgnore r (insertCAIgnore r cas)).countP (fun x => caSameKey x r) = 1 ∧
    ∀ db : DB, db.coach_athletes = insertCAIgnore r cas →
      insertCoachAthlete r db =
        .error "duplicate key value violates unique constraint on coach_athletes" := by
  have hany : cas.any (fun x => caSameKey x r) = false := by
    rw [List.any_eq_false]
    intro x hx
    have hx0 := List.countP_eq_zero.mp h x hx
    simpa using hx0
  have h1 : insertCAIgnore r cas = cas ++ [r] := by
    unfold insertCAIgnore
    rw [hany]
    rfl
  have hmem : (cas ++ [r]).any (fun x => caSameKey x r) = true := by
    rw [List.any_eq_true]
    exact ⟨r, by simp, by simp [caSameKey]⟩
  have h2 : insertCAIgnore r (cas ++ [r]) = cas ++ [r] := by
    unfold insertCAIgnore
    rw [hmem]
    rfl
  refine ⟨by rw [h1, h2], ?_, ?_⟩
  · rw [h1, h2, List.countP_append, h]
    simp [List.countP_cons, caSameKey]
  · intro db hdb
    unfold insertCoachAthlete
    rw [hdb, h1, hmem]
    rfl

/-- Witness for C3's amended theorem at a concrete fresh tuple. -/
theorem relationship_insert_idempotent_witness :
    insertCAIgnore ⟨1, 2, 3, 4, none⟩ (insertCAIgnore ⟨1, 2, 3, 4, none⟩ []) =
      insertCAIgnore ⟨1, 2, 3, 4, none⟩ [] :=
  (relationship_insert_idempotent ⟨1, 2, 3, 4, none⟩ [] rfl).1

/-! ## C5: the validation error taxonomy -/

/-- C5 counterexample: in the coach redemption flow, an already-used code
and a nonexistent code produce the identical failure (the single
`'Invalid or expired access code'` error): there is no distinct
`AlreadyUsed` outcome for a consumed code in that flow. -/
theorem coach_validation_conflates_cx :
    handleSubmit 7 "CC-999-ZZ" 9 dbCoachUsed =
      ⟨some "Invalid or expired access code", dbCoachUsed⟩ ∧
    handleSubmit 7 "CC-999-ZZ" 9 ⟨[], [], [], []⟩ =
      ⟨some "Invalid or expired access code", ⟨[], [], [], []⟩⟩ :=
  ⟨rfl, rfl⟩

/-- C5 amended.  The athlete flow's validation distinguishes all the cases:
no matching row fails with `'Invalid access code'`, a set consumption time
fails with `'This code has already been used'`, a non-athlete role fails
with `'Invalid code type'`, and otherwise (no prior connection) it succeeds
returning the code's sport, coach, organization and gender.  The coach flow
filters on null `used_at` in the query itself, so a used code and a missing
code both fail with the same `'Invalid or expired access code'` error. -/
theorem validation_error_taxonomy (uid t : Nat) (rc : String) (db : DB)
    (hne : ¬ strTrim rc = "") :
    (findCode (strTrim rc) db = none →
      validateCode uid rc db = .error "Invalid access code") ∧
    (∀ r, findCode (strTrim rc) db = some r → r.used_at ≠ none →
      validateCode uid rc db = .error "This code has already been used") ∧
    (∀ r, findCode (strTrim rc) db = some r → r.used_at = none →
      r.role ≠ "athlete" →
      validateCode uid rc db = .error "Invalid code type") ∧
    (∀ r, findCode (strTrim rc) db = some r → r.used_at = none →
      r.role = "athlete" →
      (db.coach_athletes.any (fun x =>
        x.athlete_id == uid && optEqNat r.coach_id x.coach_id &&
        optEqNat r.sport_id x.sport_id &&
        optEqNat r.organization_id x.organization_id)) = false →
      validateCode uid rc db =
        .ok ⟨r.sport_id, r.coach_id, r.organization_id, r.gender⟩) ∧
    (findUnusedCode rc db = none →
      handleSubmit uid rc t db = ⟨some "Invalid or expired access code", db⟩) := by
  refine ⟨?_, ?_, ?_, ?_, ?_⟩
  · intro hfind
    unfold validateCode
    rw [if_neg hne, hfind]
  · intro r hfind hused
    cases hu : r.used_at with
    | none => exact absurd hu hused
    | some v =>
      unfold validateCode
      simp [hne, hfind, hu]
  · intro r hfind hused hrole
    unfold validateCode
    simp [hne, hfind, hused, hrole]
  · intro r hfind hused hrole hconn
    unfold validateCode
    simp [hne, hfind, hused, hrole, hconn]
  · intro hfu
    unfold handleSubmit
    rw [hfu]

/-- Witness for C5's amended theorem: the already-used scenario code fails
athlete validation with the dedicated already-used error. -/
theorem validation_error_taxonomy_witness :
    validateCode 7 "AB-123-CD" dbUsed =
      .error "This code has already been used" :=
  (validation_error_taxonomy 7 9 "AB-123-CD" dbUsed (by decide)).2.1
    usedSoccerCode rfl (by decide)

/-! ## C6: role mismatch mutates nothing -/

/-- C6.  A code whose role does not match the flow always yields the flow's
role-mismatch error and returns the database unchanged: the athlete flow
fails with `'Invalid code type'` before any write, and the coach flow fails
with `'This code is not valid for coaches'` before any write. -/
theorem role_mismatch_no_mutation (uid t : Nat) (rc : String) (db : DB) :
    (∀ r, ¬ strTrim rc = "" → findCode (strTrim rc) db = some r →
      r.used_at = none → r.role ≠ "athlete" →
      athleteRedeemFlow uid rc t db = ⟨some "Invalid code type", db⟩) ∧
    (∀ r, findUnusedCode rc db = some r → r.role ≠ "coach" →
      handleSubmit uid rc t db =
        ⟨some "This code is not valid for coaches", db⟩) := by
  constructor
  · intro r hne hfind hused hrole
    unfold athleteRedeemFlow
    have hv : validateCode uid rc db = .error "Invalid code type" := by
      unfold validateCode
      simp [hne, hfind, hused, hrole]
    rw [hv]
  · intro r hfu hrole
    unfold handleSubmit
    rw [hfu]
    simp [hrole]

/-- Witness for C6: redeeming the unused coach code through the athlete
flow fails with the role-mismatch error and leaves the database as it
was. -/
theorem role_mismatch_no_mutation_witness :
    athleteRedeemFlow 2 "CC-999-ZZ" 9 dbCoachIssued =
      ⟨some "Invalid code type", dbCoachIssued⟩ :=
  (role_mismatch_no_mutation 2 9 "CC-999-ZZ" dbCoachIssued).1 freshCoachCode
    (by decide) rfl rfl (by decide)

/-! ## C1: the redemption update has no compare-and-set guard -/

/-- C1 counterexample: redeeming the already-consumed scenario code through
the athlete join step succeeds end to end — the update is applied although
the consumption time is non-null (it is overwritten from time 5 to time 9
and the consumer from athlete 1 to athlete 2), no `AlreadyUsed` failure
occurs, and both relationship rows are still created. -/
theorem redemption_no_null_guard_cx :
    (handleJoin 2 "AB-123-CD" soccerDetails 9 dbUsed).err = none ∧
    (handleJoin 2 "AB-123-CD" soccerDetails 9 dbUsed).db.access_codes =
      [{ usedSoccerCode with used_at := some 9, used_by := some 2 }] ∧
    (handleJoin 2 "AB-123-CD" soccerDetails 9 dbUsed).db.coach_athletes =
      [⟨21, 2, 30, 40, some "female"⟩] ∧
    (handleJoin 2 "AB-123-CD" soccerDetails 9 dbUsed).db.user_sports =
      [⟨some 2, some 30, some 40, some "female"⟩] :=
  ⟨rfl, rfl, rfl, rfl⟩

theorem update_ok_elim {ct : String} {p : CodeUpdatePayload} {db db' : DB}
    (h : updateAccessCodesByCode ct p db = .ok db') :
    db'.access_codes = db.access_codes.map (updatedRow ct p) ∧
    db'.user_sports = db.user_sports ∧ db'.profiles = db.profiles ∧
    runTriggers (firedRows ct p db) db.coach_athletes = .ok db'.coach_athletes := by
  unfold updateAccessCodesByCode at h
  cases hrt : runTriggers (firedRows ct p db) db.coach_athletes with
  | error e => rw [hrt] at h; exact Except.noConfusion h
  | ok cas =>
    rw [hrt] at h
    injection h with h
    subst h
    exact ⟨rfl, rfl, rfl, rfl⟩

/-- C1 amended.  The redemption update marks every row whose code text
matches, unconditionally on its consumption time: whenever the update
statement commits, the matching row ends up with the new consumption time
and consumer, whether or not it was already consumed.  The flow has no
zero-rows-affected check and no `AlreadyUsed` outcome of its own (the only
screening is the earlier validation read). -/
theorem redemption_update_unconditional (c : String) (u t : Nat)
    (db db' : DB) (r : AccessCodeRow)
    (hmem : r ∈ db.access_codes) (hcode : r.code = c)
    (hok : updateAccessCodesByCode c ⟨some t, some u⟩ db = .ok db') :
    { r with used_at := some t, used_by := some u } ∈ db'.access_codes := by
  rw [(update_ok_elim hok).1]
  have hrow : updatedRow c ⟨some t, some u⟩ r =
      { r with used_at := some t, used_by := some u } := by
    unfold updatedRow
    rw [if_pos hcode]
    rfl
  rw [← hrow]
  exact List.mem_map_of_mem _ hmem

/-- Witness for C1's amended theorem: the update applies to the scenario
code even though it is already consumed. -/
theorem redemption_update_unconditional_witness :
    { usedSoccerCode with used_at := some 9, used_by := some 2 } ∈
      (DB.mk [{ usedSoccerCode with used_at := some 9, used_by := some 2 }]
        [] [] []).access_codes :=
  redemption_update_unconditional "AB-123-CD" 2 9 dbUsed
    ⟨[{ usedSoccerCode with used_at := some 9, used_by := some 2 }], [], [], []⟩
    usedSoccerCode (by decide) rfl rfl

/-! ## C2: consumption can be overwritten -/

/-- C2 counterexample: with two athletes who both validated the fresh
scenario code, both join steps succeed; the consumption time transitions
twice (to 10, then overwritten to 11) and the recorded consumer changes
from athlete 1 to athlete 2 — two redeemers are recorded over time. -/
theorem consumption_overwritten_cx :
    (handleJoin 1 "AB-123-CD" soccerDetails 10 dbIssued).err = none ∧
    (handleJoin 2 "AB-123-CD" soccerDetails 11
      (handleJoin 1 "AB-123-CD" soccerDetails 10 dbIssued).db).err = none ∧
    (findCode "AB-123-CD"
        (handleJoin 1 "AB-123-CD" soccerDetails 10 dbIssued).db).map
      (fun r => (r.used_at, r.used_by)) = some (some 10, some 1) ∧
    (findCode "AB-123-CD" (handleJoin 2 "AB-123-CD" soccerDetails 11
        (handleJoin 1 "AB-123-CD" soccerDetails 10 dbIssued).db).db).map
      (fun r => (r.used_at, r.used_by)) = some (some 11, some 2) :=
  ⟨rfl, rfl, rfl, rfl⟩

/-! ## List-level lemmas for the trace analysis -/

theorem zip_map_self {α : Type} (l : List α) (f : α → α) :
    l.zip (l.map f) = l.map (fun a => (a, f a)) := by
  induction l with
  | nil => rfl
  | cons a l ih =>
    show (a, f a) :: l.zip (l.map f) = _
    rw [ih]
    rfl

theorem zip_self_append {α : Type} (l tail : List α) :
    l.zip (l ++ tail) = l.map (fun a => (a, a)) := by
  induction l with
  | nil => rfl
  | cons a l ih =>
    show (a, a) :: l.zip (l ++ tail) = _
    rw [ih]
    rfl

theorem countP_zip_le_left {α β : Type} (p : α × β → Bool) (q : α → Bool)
    (h : ∀ a b, p (a, b) = true → q a = true) :
    ∀ (l : List α) (l' : List β), (l.zip l').countP p ≤ l.countP q := by
  intro l
  induction l with
  | nil =>
    intro l'
    rw [List.zip_nil_left, List.countP_nil]
    exact Nat.zero_le _
  | cons a l ih =>
    intro l'
    cases l' with
    | nil =>
      rw [List.zip_nil_right, List.countP_nil]
      exact Nat.zero_le _
    | cons b l' =>
      rw [List.zip_cons_cons, List.countP_cons, List.countP_cons]
      have hrec := ih l'
      cases hp : p (a, b) with
      | true =>
        have hq := h a b hp
        rw [if_pos rfl, hq, if_pos rfl]
        omega
      | false =>
        rw [if_neg (by decide)]
        cases hq : q a with
        | true => rw [if_pos rfl]; omega
        | false => rw [if_neg (by decide)]; omega

theorem two_mem_le_countP {α : Type} {l : List α} {p : α → Bool} {a b : α}
    (ha : a ∈ l) (hb : b ∈ l) (hpa : p a = true) (hpb : p b = true)
    (hne : a ≠ b) : 2 ≤ l.countP p := by
  obtain ⟨l1, l2, rfl⟩ := List.append_of_mem ha
  rw [List.countP_append, List.countP_cons, hpa, if_pos rfl]
  rcases List.mem_append.mp hb with hb1 | hb2
  · have h1 : 0 < l1.countP p := List.countP_pos_iff.mpr ⟨b, hb1, hpb⟩
    omega
  · rcases List.mem_cons.mp hb2 with rfl | hb3
    · exact absurd rfl (fun hx => hne hx.symm)
    · have h2 : 0 < l2.countP p := List.countP_pos_iff.mpr ⟨b, hb3, hpb⟩
      omega

/-! ## Structural lemmas about the flows -/

theorem insertCoachAthlete_ok_elim {r : CoachAthleteRow} {db db' : DB}
    (h : insertCoachAthlete r db = .ok db') :
    db' = { db with coach_athletes := db.coach_athletes ++ [r] } := by
  unfold insertCoachAthlete at h
  split at h
  · exact Except.noConfusion h
  · injection h with h
    exact h.symm

theorem insertUserSport_ok_elim {r : UserSportRow} {db db' : DB}
    (h : insertUserSport r db = .ok db') :
    db' = { db with user_sports := db.user_sports ++ [r] } := by
  unfold insertUserSport at h
  split at h
  · exact Except.noConfusion h
  · injection h with h
    exact h.symm

theorem insertAccessCode_ok_elim {r : AccessCodeRow} {db db' : DB}
    (h : insertAccessCode r db = .ok db') :
    db.access_codes.any (fun x => x.code == r.code) = false ∧
    db' = { db with access_codes := db.access_codes ++ [r] } := by
  unfold insertAccessCode at h
  split at h
  · exact Except.noConfusion h
  · rename_i hcond
    injection h with h
    exact ⟨by simpa using hcond, h.symm⟩

theorem updatedRow_code (ct : String) (p : CodeUpdatePayload)
    (r : AccessCodeRow) : (updatedRow ct p r).code = r.code := by
  unfold updatedRow
  split
  · rfl
  · rfl

theorem updatedRow_used_by_ne_none {ct : String} {p : CodeUpdatePayload}
    {r : AccessCodeRow} (h : r.used_by ≠ none) :
    (updatedRow ct p r).used_by ≠ none := by
  unfold updatedRow
  split
  · cases hp : p.set_used_by with
    | some u => simp [applyPayload, hp]
    | none => simpa [applyPayload, hp] using h
  · exact h

theorem updatedRow_used_at_ne_none {ct : String} {p : CodeUpdatePayload}
    {r : AccessCodeRow} (h : r.used_at ≠ none) :
    (updatedRow ct p r).used_at ≠ none := by
  unfold updatedRow
  split
  · cases hp : p.set_used_at with
    | some v => simp [applyPayload, hp]
    | none => simpa [applyPayload, hp] using h
  · exact h

theorem handleJoin_codes_shape (uid : Nat) (rc : String)
    (d : AccessCodeDetails) (t : Nat) (db : DB) :
    (handleJoin uid rc d t db).db.access_codes = db.access_codes ∨
    (handleJoin uid rc d t db).db.access_codes =
      db.access_codes.map (updatedRow (strTrim rc) ⟨some t, some uid⟩) := by
  unfold handleJoin
  cases hu : updateAccessCodesByCode (strTrim rc) ⟨some t, some uid⟩ db with
  | error e => exact Or.inl rfl
  | ok db1 =>
    have h1 := (update_ok_elim hu).1
    right
    dsimp only
    cases hc : d.coach_id with
    | none => exact h1
    | some c =>
      cases hs : d.sport_id with
      | none => exact h1
      | some s =>
        cases ho : d.organization_id with
        | none => exact h1
        | some o =>
          dsimp only
          cases hca : insertCoachAthlete ⟨c, uid, s, o, d.gender⟩ db1 with
          | error e => exact h1
          | ok db2 =>
            dsimp only
            have hdb2 := insertCoachAthlete_ok_elim hca
            cases hus : insertUserSport
                ⟨some uid, some s, some o, d.gender⟩ db2 with
            | error e =>
              dsimp only
              rw [hdb2]
              exact h1
            | ok db3 =>
              dsimp only
              rw [insertUserSport_ok_elim hus, hdb2]
              exact h1

theorem markUsedIgnoring_codes (ct : String) (uid t : Nat) (db : DB) :
    (markUsedIgnoring ct uid t db).access_codes = db.access_codes ∨
    (markUsedIgnoring ct uid t db).access_codes =
      db.access_codes.map (updatedRow ct ⟨some t, some uid⟩) := by
  unfold markUsedIgnoring ignoreErr
  cases hu : updateAccessCodesByCode ct ⟨some t, some uid⟩ db with
  | error e => exact Or.inl rfl
  | ok d => exact Or.inr (update_ok_elim hu).1

theorem sportInsertIgnoring_codes (uid : Nat) (codeData : AccessCodeRow)
    (db : DB) :
    (sportInsertIgnoring uid codeData db).access_codes = db.access_codes := by
  unfold sportInsertIgnoring
  cases hsp : codeData.sport_id with
  | none => rfl
  | some s =>
    dsimp only
    unfold ignoreErr
    cases hu : insertUserSport
        ⟨some uid, some s, codeData.organization_id, none⟩ db with
    | error e => rfl
    | ok d2 =>
      rw [insertUserSport_ok_elim hu]

theorem handleSubmit_codes_shape (uid : Nat) (rc : String) (t : Nat)
    (db : DB) :
    (handleSubmit uid rc t db).db.access_codes = db.access_codes ∨
    (handleSubmit uid rc t db).db.access_codes =
      db.access_codes.map (updatedRow rc ⟨some t, some uid⟩) := by
  unfold handleSubmit
  cases hf : findUnusedCode rc db with
  | none => exact Or.inl rfl
  | some cd =>
    dsimp only
    by_cases hrole : cd.role ≠ "coach"
    · rw [if_pos hrole]
      exact Or.inl rfl
    · rw [if_neg hrole]
      show (sportInsertIgnoring uid cd
          (markUsedIgnoring rc uid t
            (updateProfilesOrg uid cd.organization_id db))).access_codes =
          db.access_codes ∨ _
      rw [sportInsertIgnoring_codes]
      exact markUsedIgnoring_codes rc uid t
        (updateProfilesOrg uid cd.organization_id db)

theorem handleSignUp_codes_shape (uid : Nat) (rc : String) (t : Nat)
    (db : DB) :
    (handleSignUp uid rc t db).db.access_codes = db.access_codes ∨
    (handleSignUp uid rc t db).db.access_codes =
      db.access_codes.map (updatedRow (strTrim rc) ⟨some t, some uid⟩) := by
  unfold handleSignUp
  cases hf : findUnusedCode (strTrim rc) db with
  | none => exact Or.inl rfl
  | some cd =>
    show (sportInsertIgnoring uid cd
        (updateProfileRoleOrg uid cd.role cd.organization_id
          (markUsedIgnoring (strTrim rc) uid t db))).access_codes =
        db.access_codes ∨ _
    rw [sportInsertIgnoring_codes]
    show (updateProfileRoleOrg uid cd.role cd.organization_id
        (markUsedIgnoring (strTrim rc) uid t db)).access_codes =
        db.access_codes ∨ _
    exact markUsedIgnoring_codes (strTrim rc) uid t db

theorem bootLoop_profiles_mono (fails : Nat → Bool) (uid : Nat)
    (name : String) (email : Option String) :
    ∀ (fuel idx : Nat) (db : DB),
      ∃ tail, (bootLoop fails uid name email fuel idx db).db =
        { db with profiles := db.profiles ++ tail } := by
  intro fuel
  induction fuel with
  | zero =>
    intro idx db
    exact ⟨[], by simp [bootLoop]⟩
  | succ n ih =>
    intro idx db
    cases hf : fails idx with
    | false =>
      rw [bootLoop_base fails uid name email n idx db hf]
      exact ⟨[⟨uid, some "athlete", none, some name, email⟩], rfl⟩
    | true =>
      cases n with
      | zero =>
        cases hf2 : fails (idx + 1) with
        | true =>
          refine ⟨[], ?_⟩
          conv_lhs => unfold bootLoop
          rw [hf, if_pos rfl, if_pos rfl, hf2, if_pos rfl]
          simp
        | false =>
          refine ⟨[⟨uid, some "athlete", none, some "New User", email⟩], ?_⟩
          rw [bootLoop_fail_last fails uid name email idx db hf hf2]
          rfl
      | succ m =>
        obtain ⟨tail, htail⟩ := ih (idx + 1) db
        refine ⟨tail, ?_⟩
        rw [bootLoop_fail_succ fails uid name email m idx db hf]
        exact htail

theorem handle_new_user_codes (fails : Nat → Bool) (uid : Nat)
    (email meta : Option String) (db : DB) :
    (handle_new_user fails uid email meta db).db.access_codes =
      db.access_codes := by
  cases hpe : profileExists uid db with
  | true => rw [handle_new_user_noop fails uid email meta db hpe]
  | false =>
    rw [handle_new_user_run fails uid email meta db hpe]
    obtain ⟨tail, htail⟩ :=
      bootLoop_profiles_mono fails uid (extractFullName email meta) email 3 0 db
    rw [htail]

theorem applyOp_codes_shape (op : Op) (db : DB) :
    (applyOp op db).access_codes = db.access_codes ∨
    (∃ ct p, (applyOp op db).access_codes =
      db.access_codes.map (updatedRow ct p)) ∨
    (∃ row, (applyOp op db).access_codes = db.access_codes ++ [row] ∧
      ∀ r ∈ db.access_codes, r.code ≠ row.code) := by
  cases op with
  | athleteJoin uid rc d t =>
    rcases handleJoin_codes_shape uid rc d t db with h | h
    · exact Or.inl h
    · exact Or.inr (Or.inl ⟨_, _, h⟩)
  | coachJoin uid rc t =>
    rcases handleSubmit_codes_shape uid rc t db with h | h
    · exact Or.inl h
    · exact Or.inr (Or.inl ⟨_, _, h⟩)
  | signupJoin uid rc t =>
    rcases handleSignUp_codes_shape uid rc t db with h | h
    · exact Or.inl h
    · exact Or.inr (Or.inl ⟨_, _, h⟩)
  | issueCode ct role sp g cb =>
    show (ignoreErr db (insertAccessCode
        ⟨ct, none, role, sp, g, some cb, none, none, none⟩ db)).access_codes =
        _ ∨ _
    cases hi : insertAccessCode
        ⟨ct, none, role, sp, g, some cb, none, none, none⟩ db with
    | error e => exact Or.inl rfl
    | ok d2 =>
      obtain ⟨hany, hd2⟩ := insertAccessCode_ok_elim hi
      refine Or.inr (Or.inr
        ⟨⟨ct, none, role, sp, g, some cb, none, none, none⟩, ?_, ?_⟩)
      · show (ignoreErr db (insertAccessCode
            ⟨ct, none, role, sp, g, some cb, none, none, none⟩ db)).access_codes = _
        rw [hi, hd2]
        rfl
      · intro r hr
        rw [List.any_eq_false] at hany
        simpa using hany r hr
  | bootstrap f uid em meta =>
    exact Or.inl (handle_new_user_codes f uid em meta db)

/-! ## Trigger-firing analysis -/

theorem dup_pair_no_fire (a : AccessCodeRow) (c : String) :
    (a.code == c && a.used_by.isNone && a.used_by.isSome) = false := by
  cases a.used_by <;> simp

theorem firesCount_le (c : String) (db db' : DB) :
    firesCount c db db' ≤ codeCount c db := by
  unfold firesCount codeCount
  refine countP_zip_le_left _ _ ?_ _ _
  intro a b hp
  rw [Bool.and_eq_true, Bool.and_eq_true] at hp
  exact hp.1.1

theorem firesCount_zero_of_allUsed (c : String) (db db' : DB)
    (h : ∀ r ∈ db.access_codes, r.code = c → r.used_by ≠ none) :
    firesCount c db db' = 0 := by
  unfold firesCount
  rw [List.countP_eq_zero]
  rintro ⟨a, b⟩ hab hp
  have hmem := (List.of_mem_zip hab).1
  rw [Bool.and_eq_true, Bool.and_eq_true] at hp
  obtain ⟨⟨hcode, hnone⟩, _⟩ := hp
  exact h a hmem (by simpa using hcode) (Option.isNone_iff_eq_none.mp hnone)

theorem allUsed_of_exists (c : String) (db : DB)
    (hcount : codeCount c db ≤ 1)
    (hex : ∃ r ∈ db.access_codes, r.code = c ∧ r.used_by ≠ none) :
    ∀ r ∈ db.access_codes, r.code = c → r.used_by ≠ none := by
  obtain ⟨r0, hr0, hc0, hu0⟩ := hex
  intro r hr hc hu
  by_cases heq : r = r0
  · subst heq
    exact hu0 hu
  · have h2 : 2 ≤ codeCount c db :=
      two_mem_le_countP hr hr0 (by simpa using hc) (by simpa using hc0) heq
    omega

theorem firesCount_pos_usedBy (op : Op) (db : DB) (c : String)
    (h : 0 < firesCount c db (applyOp op db)) :
    ∃ r ∈ (applyOp op db).access_codes, r.code = c ∧ r.used_by ≠ none := by
  rcases applyOp_codes_shape op db with hs | ⟨ct, p, hs⟩ | ⟨row, hs, hfresh⟩
  · exfalso
    unfold firesCount at h
    rw [hs] at h
    have hz : db.access_codes.zip db.access_codes =
        db.access_codes.map (fun a => (a, a)) := by
      have := zip_self_append db.access_codes []
      rwa [List.append_nil] at this
    rw [hz, List.countP_map] at h
    rw [List.countP_pos_iff] at h
    obtain ⟨a, ha, hp⟩ := h
    rw [Function.comp_apply, dup_pair_no_fire] at hp
    exact Bool.noConfusion hp
  · unfold firesCount at h
    rw [hs, zip_map_self, List.countP_map, List.countP_pos_iff] at h
    obtain ⟨a, ha, hp⟩ := h
    rw [Function.comp_apply, Bool.and_eq_true, Bool.and_eq_true] at hp
    obtain ⟨⟨hcode, _⟩, hsome⟩ := hp
    refine ⟨updatedRow ct p a, ?_, ?_, ?_⟩
    · rw [hs]
      exact List.mem_map_of_mem _ ha
    · rw [updatedRow_code]
      simpa using hcode
    · intro hnone
      rw [hnone] at hsome
      exact Bool.noConfusion hsome
  · exfalso
    unfold firesCount at h
    rw [hs, zip_self_append, List.countP_map] at h
    rw [List.countP_pos_iff] at h
    obtain ⟨a, ha, hp⟩ := h
    rw [Function.comp_apply, dup_pair_no_fire] at hp
    exact Bool.noConfusion hp

theorem applyOp_usedBy_stable (op : Op) (db : DB) (c : String)
    (h : ∃ r ∈ db.access_codes, r.code = c ∧ r.used_by ≠ none) :
    ∃ r ∈ (applyOp op db).access_codes, r.code = c ∧ r.used_by ≠ none := by
  obtain ⟨r, hr, hc, hu⟩ := h
  rcases applyOp_codes_shape op db with hs | ⟨ct, p, hs⟩ | ⟨row, hs, hfresh⟩
  · rw [hs]
    exact ⟨r, hr, hc, hu⟩
  · rw [hs]
    exact ⟨updatedRow ct p r, List.mem_map_of_mem _ hr,
      by rw [updatedRow_code]; exact hc, updatedRow_used_by_ne_none hu⟩
  · rw [hs]
    exact ⟨r, List.mem_append_left _ hr, hc, hu⟩

theorem applyOp_usedAt_stable (op : Op) (db : DB) (c : String)
    (h : ∃ r ∈ db.access_codes, r.code = c ∧ r.used_at ≠ none) :
    ∃ r ∈ (applyOp op db).access_codes, r.code = c ∧ r.used_at ≠ none := by
  obtain ⟨r, hr, hc, hu⟩ := h
  rcases applyOp_codes_shape op db with hs | ⟨ct, p, hs⟩ | ⟨row, hs, hfresh⟩
  · rw [hs]
    exact ⟨r, hr, hc, hu⟩
  · rw [hs]
    exact ⟨updatedRow ct p r, List.mem_map_of_mem _ hr,
      by rw [updatedRow_code]; exact hc, updatedRow_used_at_ne_none hu⟩
  · rw [hs]
    exact ⟨r, List.mem_append_left _ hr, hc, hu⟩

theorem applyOp_codeCount (op : Op) (db : DB) (c : String)
    (h : codeCount c db ≤ 1) : codeCount c (applyOp op db) ≤ 1 := by
  rcases applyOp_codes_shape op db with hs | ⟨ct, p, hs⟩ | ⟨row, hs, hfresh⟩
  · unfold codeCount at h ⊢
    rw [hs]
    exact h
  · unfold codeCount at h ⊢
    rw [hs, List.countP_map]
    have hcomp : ((fun r : AccessCodeRow => r.code == c) ∘ updatedRow ct p) =
        fun r : AccessCodeRow => r.code == c := by
      funext r
      rw [Function.comp_apply, updatedRow_code]
    rw [hcomp]
    exact h
  · unfold codeCount at h ⊢
    rw [hs, List.countP_append]
    by_cases hrc : row.code = c
    · have h0 : db.access_codes.countP (fun r => r.code == c) = 0 := by
        rw [List.countP_eq_zero]
        intro a ha hp
        exact hfresh a ha (by rw [hrc]; simpa using hp)
      have h1 : List.countP (fun r : AccessCodeRow => r.code == c) [row] ≤ 1 :=
        le_trans (List.countP_le_length _) (by simp)
      omega
    · have h1 : List.countP (fun r : AccessCodeRow => r.code == c) [row] = 0 := by
        rw [List.countP_eq_zero]
        intro a ha
        rw [List.mem_singleton] at ha
        subst ha
        simpa using hrc
      omega

theorem traceFires_zero_of_used (c : String) (tr : List Op) (db : DB)
    (hcount : codeCount c db ≤ 1)
    (hused : ∃ r ∈ db.access_codes, r.code = c ∧ r.used_by ≠ none) :
    traceFires c tr db = 0 := by
  induction tr generalizing db with
  | nil => rfl
  | cons op tr ih =>
    have hall := allUsed_of_exists c db hcount hused
    have h0 : firesCount c db (applyOp op db) = 0 :=
      firesCount_zero_of_allUsed c db _ hall
    show firesCount c db (applyOp op db) + traceFires c tr (applyOp op db) = 0
    rw [h0, ih (applyOp op db) (applyOp_codeCount op db c hcount)
      (applyOp_usedBy_stable op db c hused)]

theorem traceFires_le_one (c : String) (tr : List Op) (db : DB)
    (hcount : codeCount c db ≤ 1) : traceFires c tr db ≤ 1 := by
  induction tr generalizing db with
  | nil => exact Nat.zero_le 1
  | cons op tr ih =>
    show firesCount c db (applyOp op db) + traceFires c tr (applyOp op db) ≤ 1
    by_cases hpos : 0 < firesCount c db (applyOp op db)
    · have h1 : firesCount c db (applyOp op db) ≤ 1 :=
        le_trans (firesCount_le c db _) hcount
      have hz : traceFires c tr (applyOp op db) = 0 :=
        traceFires_zero_of_used c tr _ (applyOp_codeCount op db c hcount)
          (firesCount_pos_usedBy op db c hpos)
      omega
    · have h2 := ih (applyOp op db) (applyOp_codeCount op db c hcount)
      omega

theorem update_consumed_no_trigger_insert {c : String} {p : CodeUpdatePayload}
    {db db' : DB}
    (hall : ∀ r ∈ db.access_codes, r.code = c → r.used_by ≠ none)
    (hok : updateAccessCodesByCode c p db = .ok db') :
    db'.coach_athletes = db.coach_athletes := by
  have hfr : firedRows c p db = [] := by
    unfold firedRows
    rw [List.filterMap_eq_nil_iff]
    intro r hr
    rw [if_neg ?_]
    rintro ⟨hc, ht⟩
    unfold triggerFires at ht
    rw [Bool.and_eq_true] at ht
    exact hall r hr hc (Option.isNone_iff_eq_none.mp ht.1)
  have h4 := (update_ok_elim hok).2.2.2
  rw [hfr] at h4
  have : Except.ok (ε := String) db.coach_athletes = .ok db'.coach_athletes := h4
  injection this with h5
  exact h5.symm

/-- C2 amended.  Once a code's consumption time (or consumer) is set it is
never cleared by any sequence of the system's operations — redemption
flows, code issuance, bootstrap — although, as the counterexample shows, a
later redemption can overwrite it with a different time and consumer, so
"at most one recorded redeemer ever" does not hold. -/
theorem consumption_never_cleared (tr : List Op) (db : DB) (c : String) :
    ((∃ r ∈ db.access_codes, r.code = c ∧ r.used_at ≠ none) →
      ∃ r ∈ (runTrace tr db).access_codes, r.code = c ∧ r.used_at ≠ none) ∧
    ((∃ r ∈ db.access_codes, r.code = c ∧ r.used_by ≠ none) →
      ∃ r ∈ (runTrace tr db).access_codes, r.code = c ∧ r.used_by ≠ none) := by
  induction tr generalizing db with
  | nil => exact ⟨id, id⟩
  | cons op tr ih =>
    constructor
    · intro h
      exact (ih (applyOp op db)).1 (applyOp_usedAt_stable op db c h)
    · intro h
      exact (ih (applyOp op db)).2 (applyOp_usedBy_stable op db c h)

/-- Witness for C2's amended theorem: after a further redemption attempt on
the consumed scenario code, its consumption time is still non-null. -/
theorem consumption_never_cleared_witness :
    ∃ r ∈ (runTrace [Op.athleteJoin 2 "AB-123-CD" soccerDetails 11]
        dbUsed).access_codes,
      r.code = "AB-123-CD" ∧ r.used_at ≠ none :=
  (consumption_never_cleared [Op.athleteJoin 2 "AB-123-CD" soccerDetails 11]
    dbUsed "AB-123-CD").1 (by decide)

/-! ## C10: the materialization trigger fires at most once per code -/

/-- C10.  The `on_access_code_used` trigger is gated by its `WHEN` clause on
the null-to-non-null transition of `used_by`.  Along any trace of the
system's operations, for a code text with at most one row (the `UNIQUE`
constraint), that transition happens at most once; once the code is
consumed it never happens again; and an update statement hitting only
already-consumed rows of that code leaves `coach_athletes` untouched — the
trigger inserts nothing further. -/
theorem access_code_trigger_at_most_once (tr : List Op) (db : DB) (c : String)
    (hcount : codeCount c db ≤ 1) :
    traceFires c tr db ≤ 1 ∧
    ((∃ r ∈ db.access_codes, r.code = c ∧ r.used_by ≠ none) →
      traceFires c tr db = 0) ∧
    (∀ p db', (∀ r ∈ db.access_codes, r.code = c → r.used_by ≠ none) →
      updateAccessCodesByCode c p db = .ok db' →
      db'.coach_athletes = db.coach_athletes) :=
  ⟨traceFires_le_one c tr db hcount,
   fun hused => traceFires_zero_of_used c tr db hcount hused,
   fun _ _ hall hok => update_consumed_no_trigger_insert hall hok⟩

/-- Witness for C10 on a concrete two-redeemer trace of the scenario
code. -/
theorem access_code_trigger_at_most_once_witness :
    traceFires "AB-123-CD" [Op.athleteJoin 1 "AB-123-CD" soccerDetails 10,
      Op.athleteJoin 2 "AB-123-CD" soccerDetails 11] dbIssued ≤ 1 :=
  (access_code_trigger_at_most_once
    [Op.athleteJoin 1 "AB-123-CD" soccerDetails 10,
     Op.athleteJoin 2 "AB-123-CD" soccerDetails 11] dbIssued "AB-123-CD"
    (by decide)).1

/-! ## C4: postconditions of a successful athlete redemption -/

theorem caSameKey_fields {a b : CoachAthleteRow} (h : caSameKey a b = true) :
    a.coach_id = b.coach_id ∧ a.athlete_id = b.athlete_id ∧
      a.sport_id = b.sport_id ∧ a.organization_id = b.organization_id := by
  unfold caSameKey at h
  rw [Bool.and_eq_true, Bool.and_eq_true, Bool.and_eq_true] at h
  exact ⟨by simpa using h.1.1.1, by simpa using h.1.1.2,
    by simpa using h.1.2, by simpa using h.2⟩

theorem insertCAIgnore_key (k : CoachAthleteRow) (cas : List CoachAthleteRow) :
    ∃ ca ∈ insertCAIgnore k cas, ca.coach_id = k.coach_id ∧
      ca.athlete_id = k.athlete_id ∧ ca.sport_id = k.sport_id ∧
      ca.organization_id = k.organization_id := by
  unfold insertCAIgnore
  split
  · rename_i hany
    rw [List.any_eq_true] at hany
    obtain ⟨x, hx, hkey⟩ := hany
    exact ⟨x, hx, caSameKey_fields hkey⟩
  · exact ⟨k, List.mem_append_right _ (List.mem_singleton.mpr rfl),
      rfl, rfl, rfl, rfl⟩

theorem insertCAIgnore_mono (r : CoachAthleteRow)
    (cas : List CoachAthleteRow) : ∀ x ∈ cas, x ∈ insertCAIgnore r cas := by
  intro x hx
  unfold insertCAIgnore
  split
  · exact hx
  · exact List.mem_append_left _ hx

theorem haac_mono {nr : AccessCodeRow} {cas cas' : List CoachAthleteRow}
    (h : handle_athlete_access_code nr cas = .ok cas') :
    ∀ x ∈ cas, x ∈ cas' := by
  unfold handle_athlete_access_code at h
  split at h
  · cases hub : nr.used_by with
    | none =>
      rw [hub] at h
      injection h with h
      subst h
      exact fun x hx => hx
    | some ath =>
      rw [hub] at h
      cases hcb : nr.created_by with
      | none =>
        rw [hcb] at h
        cases nr.sport_id <;> cases nr.organization_id <;>
          exact Except.noConfusion h
      | some cb =>
        rw [hcb] at h
        cases hspq : nr.sport_id with
        | none =>
          rw [hspq] at h
          cases nr.organization_id <;> exact Except.noConfusion h
        | some sp =>
          rw [hspq] at h
          cases horgq : nr.organization_id with
          | none =>
            rw [horgq] at h
            exact Except.noConfusion h
          | some org =>
            rw [horgq] at h
            injection h with h
            subst h
            exact insertCAIgnore_mono _ cas
  · injection h with h
    subst h
    exact fun x hx => hx

theorem runTriggers_mono {l : List AccessCodeRow}
    {cas cas' : List CoachAthleteRow}
    (h : runTriggers l cas = .ok cas') : ∀ x ∈ cas, x ∈ cas' := by
  induction l generalizing cas with
  | nil =>
    have h2 : Except.ok (ε := String) cas = .ok cas' := h
    injection h2 with h2
    subst h2
    exact fun x hx => hx
  | cons nr rest ih =>
    unfold runTriggers at h
    cases hh : handle_athlete_access_code nr cas with
    | error e =>
      rw [hh] at h
      exact Except.noConfusion h
    | ok cas1 =>
      rw [hh] at h
      intro x hx
      exact ih h x (haac_mono hh x hx)

theorem runTriggers_key {l : List AccessCodeRow}
    {cas cas' : List CoachAthleteRow} {nr : AccessCodeRow}
    {ath cb sp org : Nat}
    (hmem : nr ∈ l) (h : runTriggers l cas = .ok cas')
    (hrole : nr.role = "athlete") (hub : nr.used_by = some ath)
    (hcb : nr.created_by = some cb) (hsp : nr.sport_id = some sp)
    (horg : nr.organization_id = some org) :
    ∃ ca ∈ cas', ca.coach_id = cb ∧ ca.athlete_id = ath ∧
      ca.sport_id = sp ∧ ca.organization_id = org := by
  induction l generalizing cas with
  | nil => exact absurd hmem (List.not_mem_nil nr)
  | cons hd rest ih =>
    unfold runTriggers at h
    cases hh : handle_athlete_access_code hd cas with
    | error e =>
      rw [hh] at h
      exact Except.noConfusion h
    | ok cas1 =>
      rw [hh] at h
      have h' : runTriggers rest cas1 = .ok cas' := h
      rcases List.mem_cons.mp hmem with heq | hmem'
      · subst heq
        have hins : cas1 = insertCAIgnore ⟨cb, ath, sp, org, none⟩ cas := by
          unfold handle_athlete_access_code at hh
          rw [if_pos hrole, hub, hcb, hsp, horg] at hh
          injection hh with hh
          exact hh.symm
        subst hins
        obtain ⟨ca, hca, hf⟩ := insertCAIgnore_key ⟨cb, ath, sp, org, none⟩ cas
        exact ⟨ca, runTriggers_mono h' ca hca, hf⟩
      · exact ih hmem' h'

theorem mem_firedRows {ct : String} {p : CodeUpdatePayload} {db : DB}
    {r : AccessCodeRow} (hmem : r ∈ db.access_codes) (hcode : r.code = ct)
    (hfires : triggerFires r (applyPayload p r) = true) :
    applyPayload p r ∈ firedRows ct p db := by
  unfold firedRows
  refine List.mem_filterMap.mpr ⟨r, hmem, ?_⟩
  rw [if_pos ⟨hcode, hfires⟩]

theorem validateCode_ok_elim {uid : Nat} {rc : String} {db : DB}
    {d : AccessCodeDetails} {r : AccessCodeRow}
    (hfind : findCode (strTrim rc) db = some r)
    (h : validateCode uid rc db = .ok d) :
    r.used_at = none ∧ r.role = "athlete" ∧
      d = ⟨r.sport_id, r.coach_id, r.organization_id, r.gender⟩ := by
  unfold validateCode at h
  split at h
  · exact Except.noConfusion h
  · rw [hfind] at h
    have h' : (if r.used_at.isSome = true then
          (Except.error "This code has already been used" :
            Except String AccessCodeDetails)
        else if r.role ≠ "athlete" then Except.error "Invalid code type"
        else if (db.coach_athletes.any (fun x =>
            x.athlete_id == uid && optEqNat r.coach_id x.coach_id &&
            optEqNat r.sport_id x.sport_id &&
            optEqNat r.organization_id x.organization_id)) = true then
          Except.error "You are already connected to this team"
        else Except.ok ⟨r.sport_id, r.coach_id, r.organization_id, r.gender⟩) =
        .ok d := h
    split at h'
    · exact Except.noConfusion h'
    · rename_i h1
      split at h'
      · exact Except.noConfusion h'
      · rename_i h2
        split at h'
        · exact Except.noConfusion h'
        · injection h' with h'
          exact ⟨Option.not_isSome_iff_eq_none.mp h1, not_not.mp h2, h'.symm⟩

/-- C4.  For an athlete code (not yet consumed, with issuer, sport and
organization present) redeemed successfully by athlete `uid` through the
athlete flow: afterwards the code row carries the new consumption time with
`used_by = uid`; a `coach_athletes` row linking the code's issuer
(`created_by`) to the athlete for the code's sport and organization exists
(materialized by the trigger); and a `user_sports` row for the athlete with
the code's sport, organization and gender exists. -/
theorem athlete_redemption_postconditions (uid t : Nat) (rc : String)
    (db : DB) (r : AccessCodeRow) (cb sp org : Nat)
    (hfind : findCode (strTrim rc) db = some r)
    (hub : r.used_by = none)
    (hcb : r.created_by = some cb) (hsp : r.sport_id = some sp)
    (horg : r.organization_id = some org)
    (hok : (athleteRedeemFlow uid rc t db).err = none) :
    (∃ r' ∈ (athleteRedeemFlow uid rc t db).db.access_codes,
        r'.code = strTrim rc ∧ r'.used_at = some t ∧ r'.used_by = some uid) ∧
    (∃ ca ∈ (athleteRedeemFlow uid rc t db).db.coach_athletes,
        ca.coach_id = cb ∧ ca.athlete_id = uid ∧ ca.sport_id = sp ∧
        ca.organization_id = org) ∧
    (∃ us ∈ (athleteRedeemFlow uid rc t db).db.user_sports,
        us.user_id = some uid ∧ us.sport_id = some sp ∧
        us.organization_id = some org ∧ us.gender = r.gender) := by
  have hrmem : r ∈ db.access_codes := List.mem_of_find?_eq_some hfind
  have hrcode : r.code = strTrim rc := by
    have := List.find?_some hfind
    simpa using this
  unfold athleteRedeemFlow at hok ⊢
  cases hv : validateCode uid rc db with
  | error e => simp [hv] at hok
  | ok d =>
    rw [hv] at hok
    dsimp only at hok ⊢
    obtain ⟨hua, hrole, hd⟩ := validateCode_ok_elim hfind hv
    subst hd
    unfold handleJoin at hok ⊢
    cases hu : updateAccessCodesByCode (strTrim rc) ⟨some t, some uid⟩ db with
    | error e => simp [hu] at hok
    | ok db1 =>
      rw [hu] at hok
      obtain ⟨hcodes1, hus1, hprof1, htrig⟩ := update_ok_elim hu
      dsimp only at hok ⊢
      rw [hsp, horg] at hok ⊢
      cases hcid : r.coach_id with
      | none => simp [hcid] at hok
      | some c2 =>
        rw [hcid] at hok
        dsimp only at hok ⊢
        cases hca : insertCoachAthlete ⟨c2, uid, sp, org, r.gender⟩ db1 with
        | error e => simp [hca] at hok
        | ok db2 =>
          rw [hca] at hok
          have hdb2 := insertCoachAthlete_ok_elim hca
          dsimp only at hok ⊢
          cases hus : insertUserSport ⟨some uid, some sp, some org, r.gender⟩
              db2 with
          | error e => simp [hus] at hok
          | ok db3 =>
            have hdb3 := insertUserSport_ok_elim hus
            dsimp only at hok ⊢
            subst hdb3
            subst hdb2
            refine ⟨?_, ?_, ?_⟩
            · refine ⟨updatedRow (strTrim rc) ⟨some t, some uid⟩ r, ?_, ?_⟩
              · show updatedRow (strTrim rc) ⟨some t, some uid⟩ r ∈
                  db1.access_codes
                rw [hcodes1]
                exact List.mem_map_of_mem _ hrmem
              · have hrow : updatedRow (strTrim rc) ⟨some t, some uid⟩ r =
                    { r with used_at := some t, used_by := some uid } := by
                  unfold updatedRow
                  rw [if_pos hrcode]
                  rfl
                rw [hrow]
                exact ⟨hrcode, rfl, rfl⟩
            · have hfires : triggerFires r
                  (applyPayload ⟨some t, some uid⟩ r) = true := by
                unfold triggerFires
                rw [hub]
                rfl
              have hfr := mem_firedRows hrmem hrcode hfires
              have hnr := runTriggers_key hfr htrig
                (show (applyPayload ⟨some t, some uid⟩ r).role = "athlete"
                  from hrole)
                (show (applyPayload ⟨some t, some uid⟩ r).used_by = some uid
                  from rfl)
                (show (applyPayload ⟨some t, some uid⟩ r).created_by = some cb
                  from hcb)
                (show (applyPayload ⟨some t, some uid⟩ r).sport_id = some sp
                  from hsp)
                (show (applyPayload ⟨some t, some uid⟩ r).organization_id =
                  some org from horg)
              obtain ⟨ca, hcamem, hf⟩ := hnr
              exact ⟨ca, List.mem_append_left _ hcamem, hf⟩
            · refine ⟨⟨some uid, some sp, some org, r.gender⟩, ?_, rfl, rfl,
                rfl, rfl⟩
              exact List.mem_append_right _ (List.mem_singleton.mpr rfl)

/-- Witness for C4: athlete 1 redeems the fresh scenario code; afterwards
the code is consumed by athlete 1 and both relationship rows exist. -/
theorem athlete_redemption_postconditions_witness :
    ∃ ca ∈ (athleteRedeemFlow 1 "AB-123-CD" 10 dbIssued).db.coach_athletes,
      ca.coach_id = 20 ∧ ca.athlete_id = 1 ∧ ca.sport_id = 30 ∧
      ca.organization_id = 40 :=
  (athlete_redemption_postconditions 1 10 "AB-123-CD" dbIssued soccerCode
    20 30 40 rfl rfl rfl rfl rfl rfl).2.1
